import Mathlib

/-!
Shallow embedding of the validation-and-dispatch pipeline from
`src/lambda/handler.py` and the downstream processing task from
`src/container/processor.py`.

External collaborators (object store, audit store, task launcher) are
modelled as oracles supplied per invocation: `Infra.fetch` gives the
outcome of `get_object_metadata`, `Infra.dispatch` the outcome of
`trigger_processing_task`, and `Infra.auditFail n` the outcome of the
n-th call to `record_audit_event` during the invocation (`none` means
the write succeeds, `some msg` means it raises with message `msg`).
Timestamps, `event_id` and the free-form `details` payloads of audit
events are nondeterministic or purely diagnostic and are not modelled;
an `AuditEvent` keeps the fields the control flow depends on.
-/

namespace SecureDataOrchestration

/-- Python truthiness of an optional string: `None` and `""` are falsy. -/
def truthy : Option String → Bool
  | none => false
  | some s => s ≠ ""

/-- Python `x or y` on optional strings: `x` if truthy, else `y`. -/
def pyOr (a b : Option String) : Option String :=
  if truthy a then a else b

/-- `d.get(k)` on a string dictionary, modelled as first-match lookup in an
association list. -/
def dictGet (m : List (String × String)) (k : String) : Option String :=
  match m with
  | [] => none
  | (k2, v) :: rest => if k2 = k then some v else dictGet rest k

/-- ASCII lower-casing of a string, modelling `str.lower()` on the ASCII
keys this pipeline handles. -/
def lowerAscii (s : String) : String :=
  String.mk (s.data.map Char.toLower)

/-- `key.lower().endswith(".zip")` from `validate_file_requirements`. -/
def hasZipExtension (key : String) : Bool :=
  let cs := (lowerAscii key).data
  cs.drop (cs.length - 4) == ['.', 'z', 'i', 'p']

/-- Hex digit test for percent-decoding. -/
def isHexDigit (c : Char) : Bool :=
  c.isDigit || ('a' ≤ c && c ≤ 'f') || ('A' ≤ c && c ≤ 'F')

/-- Value of a hex digit. -/
def hexVal (c : Char) : Nat :=
  if c.isDigit then c.toNat - '0'.toNat
  else if 'a' ≤ c && c ≤ 'f' then c.toNat - 'a'.toNat + 10
  else c.toNat - 'A'.toNat + 10

/-- Percent-unquoting scanner: `%XX` hex escapes are decoded, malformed
escapes pass through and scanning resumes at the next character. The
fuel argument (instantiated with the list length, which every step
strictly decreases at least as fast as) makes the recursion structural
so that the function evaluates inside the kernel. -/
def unquoteChars : Nat → List Char → List Char
  | 0, l => l
  | _, [] => []
  | fuel + 1, c :: rest =>
    if c = '%' then
      match rest with
      | a :: b :: rest2 =>
        if isHexDigit a && isHexDigit b then
          Char.ofNat (16 * hexVal a + hexVal b) :: unquoteChars fuel rest2
        else '%' :: unquoteChars fuel rest
      | _ => '%' :: unquoteChars fuel rest
    else c :: unquoteChars fuel rest

/-- `urllib.parse.unquote_plus` as applied to the record key: every `+`
becomes a space, then `%XX` escapes are decoded. (The source keys are
ASCII, where this matches the library call.) -/
def unquote_plus (s : String) : String :=
  let l := s.data.map fun c => if c = '+' then ' ' else c
  String.mk (unquoteChars l.length l)

/-- `head_object` response fields the handler reads: `ContentLength`
(default 0), `ContentType` (default ""), `LastModified` (stringified,
default ""), and the `Metadata` user-metadata dictionary. -/
structure HeadResponse where
  contentLength : Nat
  contentType : String
  lastModified : String
  metadata : List (String × String)
deriving DecidableEq, Repr

/-- The distinct validation failure reasons raised as `ValidationError`. -/
inductive VError where
  | missingOrganization
  | unauthorizedOrganization (orgId : String)
  | invalidExtension (key : String)
  | fileTooLarge (size : Nat)
  | emptyFile
deriving DecidableEq, Repr

/-- The `str(e)` message of each `ValidationError`, as formatted in the
source. -/
def vMessage (maxSize : Nat) : VError → String
  | .missingOrganization => "Missing organization-id tag or metadata"
  | .unauthorizedOrganization o => "Invalid organization-id: " ++ o
  | .invalidExtension k => "Invalid file extension. Expected .zip, got: " ++ k
  | .fileTooLarge n =>
      "File too large: " ++ toString n ++ " bytes (max: " ++ toString maxSize ++ ")"
  | .emptyFile => "File is empty"

/-- `max_size = 1024 * 1024 * 1024` from `validate_file_requirements`. -/
def max_size : Nat := 1024 * 1024 * 1024

/-- The tag-sourced organization id:
`tags.get("organization-id") or tags.get("OrganizationId")`. -/
def tagOrgId (tags : List (String × String)) : Option String :=
  pyOr (dictGet tags "organization-id") (dictGet tags "OrganizationId")

/-- The metadata-sourced organization id:
`metadata.get("organization-id") or metadata.get("organizationid")`. -/
def metaOrgId (meta : List (String × String)) : Option String :=
  pyOr (dictGet meta "organization-id") (dictGet meta "organizationid")

/-- Organization resolution from `validate_organization_id`: the
tag-sourced id if truthy, else the metadata-sourced id. -/
def resolveOrgId (tags meta : List (String × String)) : Option String :=
  if truthy (tagOrgId tags) then tagOrgId tags else metaOrgId meta

/-- `validate_organization_id(tags, metadata)` with the allow-list
`ALLOWED_ORGANIZATION_IDS` passed explicitly. Raising `ValidationError`
is modelled as `Except.error`. -/
def validate_organization_id (allowed : List String)
    (tags meta : List (String × String)) : Except VError String :=
  match resolveOrgId tags meta with
  | none => .error .missingOrganization
  | some orgId =>
    if orgId = "" then .error .missingOrganization
    else if orgId ∈ allowed then .ok orgId
    else .error (.unauthorizedOrganization orgId)

/-- The file-metadata dictionary returned by `validate_file_requirements`. -/
structure FileMetadata where
  file_size : Nat
  content_type : String
  last_modified : String
deriving DecidableEq, Repr

/-- `validate_file_requirements(head_response, key)`: extension check,
maximum size check, then non-empty check, in the source's order. -/
def validate_file_requirements (head : HeadResponse) (key : String) :
    Except VError FileMetadata :=
  let file_size := head.contentLength
  if hasZipExtension key = false then .error (.invalidExtension key)
  else if file_size > max_size then .error (.fileTooLarge file_size)
  else if file_size = 0 then .error .emptyFile
  else .ok ⟨file_size, head.contentType, head.lastModified⟩

/-- The validation performed by the handler for one record: organization
resolution and authorization, then file requirements, short-circuiting
at the first `ValidationError` exactly as the source's exception flow
does. -/
def validate (allowed : List String) (head : HeadResponse) (key : String)
    (tags : List (String × String)) : Except VError (String × FileMetadata) :=
  match validate_organization_id allowed tags head.metadata with
  | .error e => .error e
  | .ok orgId =>
    match validate_file_requirements head key with
    | .error e => .error e
    | .ok fm => .ok (orgId, fm)

/-- Reference validator following the spec's stated check order:
organization resolution, organization authorization, extension check,
non-empty check, maximum size check, short-circuiting at the first
failure. Used to compare the source's check order with the spec's. -/
def validateSpecOrder (allowed : List String) (head : HeadResponse)
    (key : String) (tags : List (String × String)) :
    Except VError (String × FileMetadata) :=
  match resolveOrgId tags head.metadata with
  | none => .error .missingOrganization
  | some orgId =>
    if orgId = "" then .error .missingOrganization
    else if orgId ∈ allowed then
      if hasZipExtension key = false then .error (.invalidExtension key)
      else if head.contentLength = 0 then .error .emptyFile
      else if head.contentLength > max_size then
        .error (.fileTooLarge head.contentLength)
      else .ok (orgId, ⟨head.contentLength, head.contentType, head.lastModified⟩)
    else .error (.unauthorizedOrganization orgId)

/-- One record of the inbound notification, with the bucket name and the
(possibly percent-encoded) object key; a missing or empty field models
`event["Records"][i]["s3"]` lacking it. -/
structure S3Record where
  bucket : Option String
  key : Option String
deriving DecidableEq, Repr

/-- An audit item as written by `record_audit_event`, restricted to the
fields the control flow and the claims depend on. -/
structure AuditEvent where
  organizationId : String
  eventType : String
  fileKey : String
  status : String
deriving DecidableEq, Repr

/-- Handler configuration: the `ALLOWED_ORGANIZATION_IDS` allow-list. -/
structure Config where
  allowed : List String
deriving DecidableEq, Repr

/-- Oracles for the external collaborators during one invocation.
`fetch bucket key` is the outcome of `get_object_metadata` (error =
`ClientError` with message), `dispatch bucket key orgId size` the outcome
of `trigger_processing_task`, and `auditFail n` the outcome of the n-th
`record_audit_event` call of the invocation (`some msg` = the write
raises with message `msg`). -/
structure Infra where
  fetch : String → String → Except String (HeadResponse × List (String × String))
  dispatch : String → String → String → Nat → Except String String
  auditFail : Nat → Option String

/-- One entry of the aggregated `results` list. -/
structure RecordResult where
  file : String
  organization_id : Option String
  status : String
  error : Option String
  task_arn : Option String
deriving DecidableEq, Repr

/-- Outcome of processing one record: skipped (missing bucket or key),
completed with a result entry, or crashed (an exception escaped the
per-record handlers, aborting the whole invocation). -/
inductive RecOutcome where
  | skipped
  | done (r : RecordResult)
  | crashed
deriving DecidableEq, Repr

/-- The `UPLOAD` event recorded right after a successful metadata fetch. -/
def uploadEvent (key : String) : AuditEvent :=
  ⟨"PENDING", "UPLOAD", key, "SUCCESS"⟩

/-- The `VALIDATION` event for a passed validation. -/
def validationOkEvent (orgId key : String) : AuditEvent :=
  ⟨orgId, "VALIDATION", key, "SUCCESS"⟩

/-- The `VALIDATION` event recorded in the `except ValidationError` path. -/
def validationFailEvent (orgId key : String) : AuditEvent :=
  ⟨orgId, "VALIDATION", key, "FAILURE"⟩

/-- The `ERROR` event recorded in the `except Exception` path. -/
def errorEvent (orgId key : String) : AuditEvent :=
  ⟨orgId, "ERROR", key, "FAILURE"⟩

/-- The `PROCESSING_START` event recorded after a successful dispatch. -/
def startEvent (orgId key : String) : AuditEvent :=
  ⟨orgId, "PROCESSING_START", key, "SUCCESS"⟩

/-- Result entry for a record that ends in the `except Exception` path. -/
def errorResult (key msg : String) : RecordResult :=
  ⟨key, none, "ERROR", some msg, none⟩

/-- Result entry for a record that ends in the `except ValidationError`
path. -/
def vfailResult (key : String) (e : VError) : RecordResult :=
  ⟨key, none, "VALIDATION_FAILED", some (vMessage max_size e), none⟩

/-- Result entry for a record whose processing task was started. -/
def startedResult (key orgId taskArn : String) : RecordResult :=
  ⟨key, some orgId, "PROCESSING_STARTED", none, some taskArn⟩

/-- The per-record body of `lambda_handler`'s loop. `ctr` numbers the
audit-write attempts of the invocation; the returned list holds the
events actually written. Mirrors the source's control flow: fetch
metadata, record `UPLOAD` with organization `"PENDING"`, resolve and
authorize the organization, validate file requirements, record
`VALIDATION`, dispatch, record `PROCESSING_START`; `ValidationError`
lands in the `VALIDATION`/`FAILURE` path with the current
`organization_id` (still `"UNKNOWN"` unless resolution succeeded), any
other exception in the `ERROR` path; an audit write failing inside
either `except` path escapes the loop (`.crashed`). -/
def processRecord (cfg : Config) (infra : Infra) (ctr : Nat) (rec : S3Record) :
    List AuditEvent × Nat × RecOutcome :=
  if truthy rec.bucket = false ∨ truthy rec.key = false then ([], ctr, .skipped)
  else
    let bucket := rec.bucket.getD ""
    let key := unquote_plus (rec.key.getD "")
    match infra.fetch bucket key with
    | .error msg =>
      -- `get_object_metadata` raised; caught by `except Exception`.
      match infra.auditFail ctr with
      | some _ => ([], ctr + 1, .crashed)
      | none => ([errorEvent "UNKNOWN" key], ctr + 1, .done (errorResult key msg))
    | .ok (head, tags) =>
      match infra.auditFail ctr with
      | some msg =>
        -- the UPLOAD write raised; caught by `except Exception`.
        match infra.auditFail (ctr + 1) with
        | some _ => ([], ctr + 2, .crashed)
        | none => ([errorEvent "UNKNOWN" key], ctr + 2, .done (errorResult key msg))
      | none =>
        match validate_organization_id cfg.allowed tags head.metadata with
        | .error e =>
          -- `except ValidationError` with organization_id = "UNKNOWN".
          match infra.auditFail (ctr + 1) with
          | some _ => ([uploadEvent key], ctr + 2, .crashed)
          | none =>
            ([uploadEvent key, validationFailEvent "UNKNOWN" key], ctr + 2,
             .done (vfailResult key e))
        | .ok orgId =>
          match validate_file_requirements head key with
          | .error e =>
            -- `except ValidationError` with the resolved organization_id.
            match infra.auditFail (ctr + 1) with
            | some _ => ([uploadEvent key], ctr + 2, .crashed)
            | none =>
              ([uploadEvent key, validationFailEvent orgId key], ctr + 2,
               .done (vfailResult key e))
          | .ok fm =>
            match infra.auditFail (ctr + 1) with
            | some msg =>
              -- the VALIDATION write raised; caught by `except Exception`.
              match infra.auditFail (ctr + 2) with
              | some _ => ([uploadEvent key], ctr + 3, .crashed)
              | none =>
                ([uploadEvent key, errorEvent orgId key], ctr + 3,
                 .done (errorResult key msg))
            | none =>
              match infra.dispatch bucket key orgId fm.file_size with
              | .error msg =>
                -- `trigger_processing_task` raised; `except Exception`.
                match infra.auditFail (ctr + 2) with
                | some _ =>
                  ([uploadEvent key, validationOkEvent orgId key], ctr + 3, .crashed)
                | none =>
                  ([uploadEvent key, validationOkEvent orgId key,
                    errorEvent orgId key], ctr + 3, .done (errorResult key msg))
              | .ok taskArn =>
                match infra.auditFail (ctr + 2) with
                | some msg =>
                  -- the PROCESSING_START write raised; `except Exception`.
                  match infra.auditFail (ctr + 3) with
                  | some _ =>
                    ([uploadEvent key, validationOkEvent orgId key], ctr + 4, .crashed)
                  | none =>
                    ([uploadEvent key, validationOkEvent orgId key,
                      errorEvent orgId key], ctr + 4, .done (errorResult key msg))
                | none =>
                  ([uploadEvent key, validationOkEvent orgId key,
                    startEvent orgId key], ctr + 3,
                   .done (startedResult key orgId taskArn))

/-- The loop of `lambda_handler` over the records, threading the
audit-attempt counter and collecting written events and result entries;
`none` in the last component means an exception escaped the loop. -/
def runRecords (cfg : Config) (infra : Infra) :
    Nat → List S3Record → List AuditEvent × Nat × Option (List RecordResult)
  | ctr, [] => ([], ctr, some [])
  | ctr, r :: rest =>
    match processRecord cfg infra ctr r with
    | (evs, ctr1, .crashed) => (evs, ctr1, none)
    | (evs, ctr1, .skipped) =>
      match runRecords cfg infra ctr1 rest with
      | (evs2, ctr2, res) => (evs ++ evs2, ctr2, res)
    | (evs, ctr1, .done rr) =>
      match runRecords cfg infra ctr1 rest with
      | (evs2, ctr2, res) => (evs ++ evs2, ctr2, res.map (rr :: ·))

/-- The response dictionary of `lambda_handler`. -/
structure HandlerResponse where
  statusCode : Nat
  message : String
  results : List RecordResult
deriving DecidableEq, Repr

/-- `lambda_handler(event, context)`: the written audit events and the
response; `none` as the response models the handler raising (an audit
write failing inside an `except` path). -/
def lambda_handler (cfg : Config) (infra : Infra) (records : List S3Record) :
    List AuditEvent × Option HandlerResponse :=
  match runRecords cfg infra 0 records with
  | (evs, _, res) => (evs, res.map fun rs => ⟨200, "Processing complete", rs⟩)

/-- The pure per-record outcome in terms of the oracles alone, valid when
every audit write succeeds. -/
def recordOutcome (cfg : Config) (infra : Infra) (rec : S3Record) : RecordResult :=
  let bucket := rec.bucket.getD ""
  let key := unquote_plus (rec.key.getD "")
  match infra.fetch bucket key with
  | .error msg => errorResult key msg
  | .ok (head, tags) =>
    match validate_organization_id cfg.allowed tags head.metadata with
    | .error e => vfailResult key e
    | .ok orgId =>
      match validate_file_requirements head key with
      | .error e => vfailResult key e
      | .ok fm =>
        match infra.dispatch bucket key orgId fm.file_size with
        | .error msg => errorResult key msg
        | .ok taskArn => startedResult key orgId taskArn

/-- Environment of `process_data_package` (values passed by the ECS task;
`none` or `""` models an unset variable, matching Python truthiness in
the `all([...])` check). -/
structure ProcEnv where
  s3Bucket : Option String
  s3Key : Option String
  organizationId : Option String
  auditTableName : Option String
  fileSize : String
deriving DecidableEq, Repr

/-- Oracles for the processor run: `auditFail n` is the outcome of its
n-th `record_audit_event` call, `headOk` whether the `head_object`
verification succeeds (its failure is caught and only logged). -/
structure ProcInfra where
  auditFail : Nat → Option String
  headOk : Bool

/-- Final state of a processor run: normal completion, `sys.exit(1)`, or
an uncaught exception (an audit write raising outside the `try` body's
protection). -/
inductive ProcOutcome where
  | success
  | exitFailure
  | crashed
deriving DecidableEq, Repr

/-- `all([S3_BUCKET, S3_KEY, ORGANIZATION_ID, AUDIT_TABLE_NAME])` with
Python truthiness. -/
def procAllPresent (env : ProcEnv) : Bool :=
  truthy env.s3Bucket && truthy env.s3Key && truthy env.organizationId &&
    truthy env.auditTableName

/-- `process_data_package()`: written audit events and final state.
With a required variable missing it records `PROCESSING_ERROR` and
exits; otherwise it records `PROCESSING_IN_PROGRESS`, runs the stubbed
processing (the `head_object` verification failure is swallowed), and
records `PROCESSING_COMPLETE` with status `SUCCESS`; any exception in
the `try` body (here: an audit write raising) is caught and a
`PROCESSING_COMPLETE` event with status `FAILURE` is recorded before
`sys.exit(1)`. -/
def process_data_package (env : ProcEnv) (infra : ProcInfra) :
    List AuditEvent × ProcOutcome :=
  let orgId := env.organizationId.getD ""
  let key := env.s3Key.getD ""
  if procAllPresent env = false then
    match infra.auditFail 0 with
    | some _ => ([], .crashed)
    | none =>
      ([⟨if truthy env.organizationId then orgId else "UNKNOWN",
         "PROCESSING_ERROR",
         if truthy env.s3Key then key else "UNKNOWN", "FAILURE"⟩],
       .exitFailure)
  else
    match infra.auditFail 0 with
    | some _ =>
      -- the PROCESSING_IN_PROGRESS write raised; caught by `except`.
      match infra.auditFail 1 with
      | some _ => ([], .crashed)
      | none => ([⟨orgId, "PROCESSING_COMPLETE", key, "FAILURE"⟩], .exitFailure)
    | none =>
      match infra.auditFail 1 with
      | some _ =>
        -- the PROCESSING_COMPLETE write raised; caught by `except`.
        match infra.auditFail 2 with
        | some _ => ([⟨orgId, "PROCESSING_IN_PROGRESS", key, "SUCCESS"⟩], .crashed)
        | none =>
          ([⟨orgId, "PROCESSING_IN_PROGRESS", key, "SUCCESS"⟩,
            ⟨orgId, "PROCESSING_COMPLETE", key, "FAILURE"⟩], .exitFailure)
      | none =>
        ([⟨orgId, "PROCESSING_IN_PROGRESS", key, "SUCCESS"⟩,
          ⟨orgId, "PROCESSING_COMPLETE", key, "SUCCESS"⟩], .success)

/-! Theorems. -/

/-- Truthiness of the resolved organization id in terms of its two
sources. -/
theorem truthy_resolveOrgId (tags meta : List (String × String)) :
    truthy (resolveOrgId tags meta) =
      (truthy (tagOrgId tags) || truthy (metaOrgId meta)) := by
  unfold resolveOrgId
  by_cases ht : truthy (tagOrgId tags) <;> simp [ht]

/-- `validate_organization_id` fails with `MissingOrganization` exactly
when the resolved organization id is `None` or empty. -/
theorem validate_org_missing_iff (allowed : List String)
    (tags meta : List (String × String)) :
    validate_organization_id allowed tags meta = .error .missingOrganization ↔
      truthy (resolveOrgId tags meta) = false := by
  unfold validate_organization_id
  cases h : resolveOrgId tags meta with
  | none => simp [truthy]
  | some s =>
    by_cases hs : s = ""
    · subst hs; simp [truthy]
    · by_cases hmem : s ∈ allowed <;> simp [hs, hmem, truthy]

/-- Claim C1: for every metadata, key, tags, user metadata and
allow-list, the handler's validation is extensionally the five-check
short-circuiting validator in the spec's order — organization resolution
(`MissingOrganization`), organization authorization
(`UnauthorizedOrganization`), extension check (`InvalidExtension`),
non-empty check (`EmptyFile`), maximum size check (`FileTooLarge`) —
returning the first failing check's distinct failure reason and nothing
from any later check. (The source orders the two size checks the other
way round, but their failure conditions are disjoint, so the observable
validator is the same function.) -/
theorem validate_matches_spec_order (allowed : List String) (head : HeadResponse)
    (key : String) (tags : List (String × String)) :
    validate allowed head key tags = validateSpecOrder allowed head key tags := by
  unfold validate validateSpecOrder validate_organization_id validate_file_requirements
  cases resolveOrgId tags head.metadata with
  | none => rfl
  | some orgId =>
    by_cases h1 : orgId = ""
    · simp [h1]
    · by_cases h2 : orgId ∈ allowed
      · by_cases h3 : hasZipExtension key = false
        · simp [h1, h2, h3]
        · by_cases h4 : head.contentLength = 0
          · simp [h1, h2, h3, h4, max_size]
          · by_cases h5 : head.contentLength > max_size <;>
              simp [h1, h2, h3, h4, h5]
      · simp [h1, h2]

/-- Claim C5, counterexample: with `sizeBytes = 0`, a key with a wrong
extension and a resolved authorized organization, validation returns
`InvalidExtension`, not `EmptyFile` — so an empty file does not yield
`EmptyFile` regardless of the other fields. -/
theorem empty_file_not_first_cex :
    validate ["acme"] ⟨0, "", "", []⟩ "a.txt" [("organization-id", "acme")] =
      .error (.invalidExtension "a.txt") ∧
    VError.invalidExtension "a.txt" ≠ .emptyFile := by
  constructor
  · rfl
  · decide

/-- Claim C5, amended: for every metadata with `sizeBytes = 0` whose
organization resolves and is authorized and whose key ends in `.zip`
(case-insensitively), validation returns `EmptyFile` — regardless of the
remaining fields (content type, tag values, further metadata). -/
theorem empty_file_after_org_and_extension (allowed : List String)
    (head : HeadResponse) (key : String) (tags : List (String × String))
    (orgId : String)
    (h0 : head.contentLength = 0)
    (horg : validate_organization_id allowed tags head.metadata = .ok orgId)
    (hext : hasZipExtension key = true) :
    validate allowed head key tags = .error .emptyFile := by
  unfold validate validate_file_requirements
  rw [horg]
  simp [hext, h0, max_size]

/-- Witness for the amended claim C5 at a concrete empty file. -/
theorem empty_file_after_org_and_extension_witness :
    validate ["acme"] ⟨0, "", "", []⟩ "b.zip" [("organization-id", "acme")] =
      .error .emptyFile :=
  empty_file_after_org_and_extension ["acme"] ⟨0, "", "", []⟩ "b.zip"
    [("organization-id", "acme")] "acme" rfl rfl rfl

/-- Claim C7: organization resolution prefers the tag-sourced id — when
both a tag-sourced and a metadata-sourced id are present (non-empty) and
differ, the tag-sourced value wins; with no truthy tag-sourced id it
falls back to the metadata-sourced id; and `validate_organization_id`
fails with `MissingOrganization` exactly when neither source yields an
id. -/
theorem org_resolution_precedence :
    (∀ (tags meta : List (String × String)) (t m : String),
      tagOrgId tags = some t → t ≠ "" → metaOrgId meta = some m → m ≠ "" →
      t ≠ m → resolveOrgId tags meta = some t) ∧
    (∀ (tags meta : List (String × String)),
      truthy (tagOrgId tags) = false → resolveOrgId tags meta = metaOrgId meta) ∧
    (∀ (allowed : List String) (tags meta : List (String × String)),
      validate_organization_id allowed tags meta = .error .missingOrganization ↔
      truthy (tagOrgId tags) = false ∧ truthy (metaOrgId meta) = false) := by
  refine ⟨?_, ?_, ?_⟩
  · intro tags meta t m ht htne hm hmne hne
    unfold resolveOrgId
    rw [ht]
    simp [truthy, htne]
  · intro tags meta hfalse
    unfold resolveOrgId
    rw [hfalse]
    simp
  · intro allowed tags meta
    rw [validate_org_missing_iff, truthy_resolveOrgId]
    simp [Bool.or_eq_false_iff]

/-- Witness for claim C7: with tag id `acme` and metadata id `beta`,
resolution returns `acme`. -/
theorem org_resolution_precedence_witness :
    resolveOrgId [("organization-id", "acme")] [("organization-id", "beta")] =
      some "acme" :=
  org_resolution_precedence.1 [("organization-id", "acme")]
    [("organization-id", "beta")] "acme" "beta" rfl (by decide) rfl
    (by decide) (by decide)

/-- Claim C8: with an authorized organization and a `.zip` key, the
validator reports `FileTooLarge` exactly when `sizeBytes` exceeds
1 GiB = 1073741824 bytes; the record `x.zip` of size 2000000000 with a
valid organization yields result status `VALIDATION_FAILED` with the
`FileTooLarge` message; and a file of exactly 1073741824 bytes passes
validation. -/
theorem max_size_boundary :
    (∀ (allowed : List String) (head : HeadResponse) (key : String)
       (tags : List (String × String)) (orgId : String),
      validate_organization_id allowed tags head.metadata = .ok orgId →
      hasZipExtension key = true →
      (validate allowed head key tags = .error (.fileTooLarge head.contentLength) ↔
        1073741824 < head.contentLength)) ∧
    (lambda_handler ⟨["acme"]⟩
        ⟨fun _ _ => .ok (⟨2000000000, "", "", []⟩, [("organization-id", "acme")]),
         fun _ _ _ _ => .ok "arn:aws:ecs:task", fun _ => none⟩
        [⟨some "bkt", some "x.zip"⟩]).2 =
      some ⟨200, "Processing complete",
        [⟨"x.zip", none, "VALIDATION_FAILED",
          some "File too large: 2000000000 bytes (max: 1073741824)", none⟩]⟩ ∧
    validate ["acme"] ⟨1073741824, "", "", []⟩ "x.zip" [("organization-id", "acme")] =
      .ok ("acme", ⟨1073741824, "", ""⟩) := by
  refine ⟨?_, rfl, rfl⟩
  intro allowed head key tags orgId horg hext
  unfold validate validate_file_requirements
  rw [horg]
  have hm : max_size = 1073741824 := rfl
  by_cases h5 : 1073741824 < head.contentLength
  · have h5' : head.contentLength > max_size := by rw [hm]; exact h5
    simp [hext, h5', h5]
  · have h5' : ¬ head.contentLength > max_size := by rw [hm]; exact h5
    by_cases h4 : head.contentLength = 0 <;> simp [hext, h5', h4, h5]

/-- Witness for claim C8 at a 2000000000-byte file. -/
theorem max_size_boundary_witness :
    (validate ["acme"] ⟨2000000000, "", "", []⟩ "y.zip"
        [("organization-id", "acme")] =
      .error (.fileTooLarge 2000000000)) ↔ 1073741824 < 2000000000 :=
  max_size_boundary.1 ["acme"] ⟨2000000000, "", "", []⟩ "y.zip"
    [("organization-id", "acme")] "acme" rfl rfl

/-- When every audit write succeeds, processing one well-formed record
never crashes and produces the pure per-record outcome. -/
theorem processRecord_auditOk (cfg : Config) (infra : Infra)
    (hA : ∀ n, infra.auditFail n = none) (ctr : Nat) (rec : S3Record)
    (hb : truthy rec.bucket = true) (hk : truthy rec.key = true) :
    ∃ evs ctr2, processRecord cfg infra ctr rec =
      (evs, ctr2, .done (recordOutcome cfg infra rec)) := by
  unfold processRecord recordOutcome
  simp only [hb, hk, Bool.true_eq_false, or_self, if_false]
  cases hf : infra.fetch (rec.bucket.getD "") (unquote_plus (rec.key.getD "")) with
  | error msg =>
    simp only [hA]
    exact ⟨_, _, rfl⟩
  | ok p =>
    obtain ⟨head, tags⟩ := p
    dsimp only
    simp only [hA]
    cases ho : validate_organization_id cfg.allowed tags head.metadata with
    | error e => exact ⟨_, _, rfl⟩
    | ok orgId =>
      dsimp only
      cases hv : validate_file_requirements head (unquote_plus (rec.key.getD "")) with
      | error e => exact ⟨_, _, rfl⟩
      | ok fm =>
        dsimp only
        cases hd : infra.dispatch (rec.bucket.getD "") (unquote_plus (rec.key.getD ""))
            orgId fm.file_size with
        | error msg => exact ⟨_, _, rfl⟩
        | ok arn => exact ⟨_, _, rfl⟩

/-- When every audit write succeeds, the record loop processes every
well-formed record and collects one outcome per record, in order. -/
theorem runRecords_auditOk (cfg : Config) (infra : Infra)
    (hA : ∀ n, infra.auditFail n = none) (records : List S3Record)
    (hwf : ∀ r ∈ records, truthy r.bucket = true ∧ truthy r.key = true) :
    ∀ ctr, ∃ evs ctr2, runRecords cfg infra ctr records =
      (evs, ctr2, some (records.map (recordOutcome cfg infra))) := by
  induction records with
  | nil => intro ctr; exact ⟨[], ctr, rfl⟩
  | cons r rest ih =>
    intro ctr
    obtain ⟨hbr, hkr⟩ := hwf r (List.mem_cons_self r rest)
    obtain ⟨evs, ctr2, hpr⟩ := processRecord_auditOk cfg infra hA ctr r hbr hkr
    obtain ⟨evs2, ctr3, hrr⟩ :=
      ih (fun x hx => hwf x (List.mem_cons_of_mem r hx)) ctr2
    refine ⟨evs ++ evs2, ctr3, ?_⟩
    unfold runRecords
    rw [hpr]
    dsimp only
    rw [hrr]
    simp

/-- Claim C2, counterexample: with a record whose metadata fetch fails
and every audit write succeeding, the whole audit trace of the
invocation is a single ERROR event with organization "UNKNOWN" — no
UPLOAD event is recorded at all, so the UPLOAD event is not recorded
before the metadata fetch. -/
theorem upload_not_before_fetch_cex :
    (lambda_handler ⟨["acme"]⟩
        ⟨fun _ _ => .error "NoSuchKey", fun _ _ _ _ => .ok "arn", fun _ => none⟩
        [⟨some "bkt", some "data.zip"⟩]).1 =
      [errorEvent "UNKNOWN" "data.zip"] ∧
    (errorEvent "UNKNOWN" "data.zip").eventType = "ERROR" ∧
    (errorEvent "UNKNOWN" "data.zip").organizationId ≠ "PENDING" := by
  refine ⟨rfl, rfl, ?_⟩
  decide

/-- Claim C2, amended: the UPLOAD audit event with organizationId
"PENDING" is recorded directly after a successful metadata fetch, as the
first audit event of the record's processing; when the metadata fetch
fails, no UPLOAD event is written — the record's single audit event is an
ERROR event with organizationId "UNKNOWN" (provided that audit write
succeeds), so every received record still gets at least one audit
event. -/
theorem upload_event_after_fetch (cfg : Config) (infra : Infra) (ctr : Nat)
    (rec : S3Record) (hb : truthy rec.bucket = true) (hk : truthy rec.key = true)
    (h0 : infra.auditFail ctr = none) :
    (∀ head tags,
      infra.fetch (rec.bucket.getD "") (unquote_plus (rec.key.getD "")) =
        .ok (head, tags) →
      (processRecord cfg infra ctr rec).1.head? =
        some (uploadEvent (unquote_plus (rec.key.getD "")))) ∧
    (∀ msg,
      infra.fetch (rec.bucket.getD "") (unquote_plus (rec.key.getD "")) =
        .error msg →
      (processRecord cfg infra ctr rec).1 =
        [errorEvent "UNKNOWN" (unquote_plus (rec.key.getD ""))]) := by
  constructor
  · intro head tags hf
    unfold processRecord
    simp only [hb, hk, Bool.true_eq_false, or_self, if_false, hf, h0]
    repeat' split
    all_goals rfl
  · intro msg hf
    unfold processRecord
    simp only [hb, hk, Bool.true_eq_false, or_self, if_false, hf, h0]

/-- Witness for the amended claim C2 at a record whose fetch fails. -/
theorem upload_event_after_fetch_witness :
    (processRecord ⟨["acme"]⟩
        ⟨fun _ _ => .error "NoSuchKey", fun _ _ _ _ => .ok "arn", fun _ => none⟩
        0 ⟨some "bkt", some "k.zip"⟩).1 =
      [errorEvent "UNKNOWN" "k.zip"] :=
  (upload_event_after_fetch ⟨["acme"]⟩
      ⟨fun _ _ => .error "NoSuchKey", fun _ _ _ _ => .ok "arn", fun _ => none⟩
      0 ⟨some "bkt", some "k.zip"⟩ rfl rfl rfl).2 "NoSuchKey" rfl

/-- Claim C3, counterexample: a batch of two well-formed records in which
the first fails validation and its failure-audit write fails (an
infrastructure failure) makes the handler raise — the response is absent
instead of a 200 with two entries, and the second record is never
processed (the trace stops at the first record's UPLOAD event). -/
theorem batch_abort_on_audit_failure_cex :
    (lambda_handler ⟨["acme"]⟩
        ⟨fun _ _ => .ok (⟨500, "", "", []⟩, []), fun _ _ _ _ => .ok "arn",
         fun n => if n = 1 then some "dynamo down" else none⟩
        [⟨some "b", some "k.zip"⟩, ⟨some "b", some "j.zip"⟩]).2 = none ∧
    (lambda_handler ⟨["acme"]⟩
        ⟨fun _ _ => .ok (⟨500, "", "", []⟩, []), fun _ _ _ _ => .ok "arn",
         fun n => if n = 1 then some "dynamo down" else none⟩
        [⟨some "b", some "k.zip"⟩, ⟨some "b", some "j.zip"⟩]).1 =
      [uploadEvent "k.zip"] :=
  ⟨rfl, rfl⟩

/-- Claim C3, amended: for every batch of well-formed records in which
every audit write succeeds — records may pass validation, fail
validation, or hit an infrastructure failure in the metadata fetch or
the dispatch — the handler processes every record independently and
returns statusCode 200 with exactly one result entry per record. -/
theorem handler_processes_all_records (cfg : Config) (infra : Infra)
    (records : List S3Record)
    (hA : ∀ n, infra.auditFail n = none)
    (hwf : ∀ r ∈ records, truthy r.bucket = true ∧ truthy r.key = true) :
    (lambda_handler cfg infra records).2 =
      some ⟨200, "Processing complete", records.map (recordOutcome cfg infra)⟩ ∧
    (records.map (recordOutcome cfg infra)).length = records.length := by
  obtain ⟨evs, ctr2, h⟩ := runRecords_auditOk cfg infra hA records hwf 0
  constructor
  · unfold lambda_handler
    rw [h]
    simp
  · exact List.length_map records (recordOutcome cfg infra)

/-- Witness for the amended claim C3 on a two-record batch where the
first record passes validation and the second fails it. -/
theorem handler_processes_all_records_witness :
    (lambda_handler ⟨["acme"]⟩
        ⟨fun _ k => if k = "good.zip"
            then .ok (⟨500, "application/zip", "", []⟩, [("organization-id", "acme")])
            else .ok (⟨500, "", "", []⟩, []),
         fun _ _ _ _ => .ok "arn:aws:ecs:task-1", fun _ => none⟩
        [⟨some "bkt", some "good.zip"⟩, ⟨some "bkt", some "noorg.zip"⟩]).2 =
      some ⟨200, "Processing complete",
        [startedResult "good.zip" "acme" "arn:aws:ecs:task-1",
         vfailResult "noorg.zip" .missingOrganization]⟩ :=
  (handler_processes_all_records ⟨["acme"]⟩ _ _ (fun _ => rfl) (by decide)).1

/-- Claim C4, counterexample: a batch of two well-formed records in which
the first record's validation-failure audit write fails aborts the whole
handler — the second record is never processed, so an audit-write failure
is not contained to the failing record. -/
theorem audit_failure_aborts_siblings_cex :
    (lambda_handler ⟨["acme"]⟩
        ⟨fun _ _ => .ok (⟨900, "", "", [("organization-id", "ghost")]⟩, []),
         fun _ _ _ _ => .ok "arn",
         fun n => if n = 1 then some "audit write refused" else none⟩
        [⟨some "bb", some "s1.zip"⟩, ⟨some "bb", some "s2.zip"⟩]).2 = none ∧
    (lambda_handler ⟨["acme"]⟩
        ⟨fun _ _ => .ok (⟨900, "", "", [("organization-id", "ghost")]⟩, []),
         fun _ _ _ _ => .ok "arn",
         fun n => if n = 1 then some "audit write refused" else none⟩
        [⟨some "bb", some "s1.zip"⟩, ⟨some "bb", some "s2.zip"⟩]).1 =
      [uploadEvent "s1.zip"] :=
  ⟨rfl, rfl⟩

/-- Appending to the batch after a completed record: when the loop body
ends in a result entry, the remaining records are still processed and
their results follow this record's entry. -/
theorem runRecords_cons_done (cfg : Config) (infra : Infra) (ctr : Nat)
    (rec : S3Record) (rest : List S3Record) (evs : List AuditEvent) (ctr1 : Nat)
    (r : RecordResult)
    (h : processRecord cfg infra ctr rec = (evs, ctr1, .done r)) :
    (runRecords cfg infra ctr (rec :: rest)).2.2 =
      ((runRecords cfg infra ctr1 rest).2.2).map (r :: ·) := by
  rcases hR : runRecords cfg infra ctr1 rest with ⟨evs2, ctr2, res⟩
  conv_lhs => rw [runRecords]
  rw [h]
  dsimp only
  rw [hR]

/-- A crashed record makes the whole remaining batch yield no result
list. -/
theorem runRecords_cons_crashed (cfg : Config) (infra : Infra) (ctr : Nat)
    (rec : S3Record) (rest : List S3Record) (evs : List AuditEvent) (ctr1 : Nat)
    (h : processRecord cfg infra ctr rec = (evs, ctr1, .crashed)) :
    (runRecords cfg infra ctr (rec :: rest)).2.2 = none := by
  conv_lhs => rw [runRecords]
  rw [h]

/-- A crash anywhere in the batch propagates: when the loop over the
records after some leading records yields no result list, the loop over
the whole batch yields no result list either. -/
theorem runRecords_suffix_none (cfg : Config) (infra : Infra) :
    ∀ (pre rest : List S3Record) (ctr : Nat),
      (runRecords cfg infra (runRecords cfg infra ctr pre).2.1 rest).2.2 = none →
      (runRecords cfg infra ctr (pre ++ rest)).2.2 = none := by
  intro pre
  induction pre with
  | nil =>
    intro rest ctr h
    exact h
  | cons r pre ih =>
    intro rest ctr h
    rcases hp : processRecord cfg infra ctr r with ⟨evs, ctr1, out⟩
    cases out with
    | crashed =>
      show (runRecords cfg infra ctr (r :: (pre ++ rest))).2.2 = none
      conv_lhs => rw [runRecords]
      rw [hp]
    | skipped =>
      have hctr : (runRecords cfg infra ctr (r :: pre)).2.1 =
          (runRecords cfg infra ctr1 pre).2.1 := by
        conv_lhs => rw [runRecords]
        rw [hp]
      rw [hctr] at h
      have h2 := ih rest ctr1 h
      show (runRecords cfg infra ctr (r :: (pre ++ rest))).2.2 = none
      conv_lhs => rw [runRecords]
      rw [hp]
      dsimp only
      exact h2
    | done rr =>
      have hctr : (runRecords cfg infra ctr (r :: pre)).2.1 =
          (runRecords cfg infra ctr1 pre).2.1 := by
        conv_lhs => rw [runRecords]
        rw [hp]
      rw [hctr] at h
      have h2 := ih rest ctr1 h
      show (runRecords cfg infra ctr (r :: (pre ++ rest))).2.2 = none
      conv_lhs => rw [runRecords]
      rw [hp]
      dsimp only
      rw [h2]
      rfl

/-- Claim C4, amended: an audit-write failure is never silently
swallowed. The parts cover, in order: a failure of each main-path write —
the UPLOAD write (part 1), the VALIDATION-success write (part 2) and the
PROCESSING_START write (part 3) — with the subsequent ERROR-audit write
succeeding is surfaced as that record's ERROR outcome carrying the
write's message, and any record that ends in a result entry lets the
remaining records of the batch be processed, their results following its
own (part 4); a failure of a write inside an exception handler — the
VALIDATION-failure write after an organization error (part 5) or after a
file-requirements error (part 6), and the ERROR write after a fetch
failure (part 7), after an UPLOAD-write failure (part 8), after a
VALIDATION-success-write failure (part 9), after a dispatch failure
(part 10) or after a PROCESSING_START-write failure (part 11) — escapes
the loop as a crash of that record's processing; a crashed record aborts
the remaining records of its batch (part 12), and at any batch position
this propagates so that the handler returns no response at all
(part 13). -/
theorem audit_failure_propagation (cfg : Config) (infra : Infra)
    (rec : S3Record)
    (hb : truthy rec.bucket = true) (hk : truthy rec.key = true) :
    (∀ ctr msg head tags,
      infra.fetch (rec.bucket.getD "") (unquote_plus (rec.key.getD "")) =
        .ok (head, tags) →
      infra.auditFail ctr = some msg → infra.auditFail (ctr + 1) = none →
      processRecord cfg infra ctr rec =
        ([errorEvent "UNKNOWN" (unquote_plus (rec.key.getD ""))], ctr + 2,
         .done (errorResult (unquote_plus (rec.key.getD "")) msg))) ∧
    (∀ ctr msg head tags orgId fm,
      infra.fetch (rec.bucket.getD "") (unquote_plus (rec.key.getD "")) =
        .ok (head, tags) →
      validate_organization_id cfg.allowed tags head.metadata = .ok orgId →
      validate_file_requirements head (unquote_plus (rec.key.getD "")) = .ok fm →
      infra.auditFail ctr = none → infra.auditFail (ctr + 1) = some msg →
      infra.auditFail (ctr + 2) = none →
      processRecord cfg infra ctr rec =
        ([uploadEvent (unquote_plus (rec.key.getD "")),
          errorEvent orgId (unquote_plus (rec.key.getD ""))], ctr + 3,
         .done (errorResult (unquote_plus (rec.key.getD "")) msg))) ∧
    (∀ ctr msg head tags orgId fm arn,
      infra.fetch (rec.bucket.getD "") (unquote_plus (rec.key.getD "")) =
        .ok (head, tags) →
      validate_organization_id cfg.allowed tags head.metadata = .ok orgId →
      validate_file_requirements head (unquote_plus (rec.key.getD "")) = .ok fm →
      infra.dispatch (rec.bucket.getD "") (unquote_plus (rec.key.getD ""))
        orgId fm.file_size = .ok arn →
      infra.auditFail ctr = none → infra.auditFail (ctr + 1) = none →
      infra.auditFail (ctr + 2) = some msg → infra.auditFail (ctr + 3) = none →
      processRecord cfg infra ctr rec =
        ([uploadEvent (unquote_plus (rec.key.getD "")),
          validationOkEvent orgId (unquote_plus (rec.key.getD "")),
          errorEvent orgId (unquote_plus (rec.key.getD ""))], ctr + 4,
         .done (errorResult (unquote_plus (rec.key.getD "")) msg))) ∧
    (∀ ctr rest evs ctr1 r,
      processRecord cfg infra ctr rec = (evs, ctr1, .done r) →
      (runRecords cfg infra ctr (rec :: rest)).2.2 =
        ((runRecords cfg infra ctr1 rest).2.2).map (r :: ·)) ∧
    (∀ ctr msg head tags e,
      infra.fetch (rec.bucket.getD "") (unquote_plus (rec.key.getD "")) =
        .ok (head, tags) →
      validate_organization_id cfg.allowed tags head.metadata = .error e →
      infra.auditFail ctr = none → infra.auditFail (ctr + 1) = some msg →
      processRecord cfg infra ctr rec =
        ([uploadEvent (unquote_plus (rec.key.getD ""))], ctr + 2, .crashed)) ∧
    (∀ ctr msg head tags orgId e,
      infra.fetch (rec.bucket.getD "") (unquote_plus (rec.key.getD "")) =
        .ok (head, tags) →
      validate_organization_id cfg.allowed tags head.metadata = .ok orgId →
      validate_file_requirements head (unquote_plus (rec.key.getD "")) = .error e →
      infra.auditFail ctr = none → infra.auditFail (ctr + 1) = some msg →
      processRecord cfg infra ctr rec =
        ([uploadEvent (unquote_plus (rec.key.getD ""))], ctr + 2, .crashed)) ∧
    (∀ ctr msg msg2,
      infra.fetch (rec.bucket.getD "") (unquote_plus (rec.key.getD "")) =
        .error msg →
      infra.auditFail ctr = some msg2 →
      processRecord cfg infra ctr rec = ([], ctr + 1, .crashed)) ∧
    (∀ ctr msg msg2 head tags,
      infra.fetch (rec.bucket.getD "") (unquote_plus (rec.key.getD "")) =
        .ok (head, tags) →
      infra.auditFail ctr = some msg → infra.auditFail (ctr + 1) = some msg2 →
      processRecord cfg infra ctr rec = ([], ctr + 2, .crashed)) ∧
    (∀ ctr msg msg2 head tags orgId fm,
      infra.fetch (rec.bucket.getD "") (unquote_plus (rec.key.getD "")) =
        .ok (head, tags) →
      validate_organization_id cfg.allowed tags head.metadata = .ok orgId →
      validate_file_requirements head (unquote_plus (rec.key.getD "")) = .ok fm →
      infra.auditFail ctr = none → infra.auditFail (ctr + 1) = some msg →
      infra.auditFail (ctr + 2) = some msg2 →
      processRecord cfg infra ctr rec =
        ([uploadEvent (unquote_plus (rec.key.getD ""))], ctr + 3, .crashed)) ∧
    (∀ ctr msg msg2 head tags orgId fm,
      infra.fetch (rec.bucket.getD "") (unquote_plus (rec.key.getD "")) =
        .ok (head, tags) →
      validate_organization_id cfg.allowed tags head.metadata = .ok orgId →
      validate_file_requirements head (unquote_plus (rec.key.getD "")) = .ok fm →
      infra.dispatch (rec.bucket.getD "") (unquote_plus (rec.key.getD ""))
        orgId fm.file_size = .error msg →
      infra.auditFail ctr = none → infra.auditFail (ctr + 1) = none →
      infra.auditFail (ctr + 2) = some msg2 →
      processRecord cfg infra ctr rec =
        ([uploadEvent (unquote_plus (rec.key.getD "")),
          validationOkEvent orgId (unquote_plus (rec.key.getD ""))], ctr + 3,
         .crashed)) ∧
    (∀ ctr msg msg2 head tags orgId fm arn,
      infra.fetch (rec.bucket.getD "") (unquote_plus (rec.key.getD "")) =
        .ok (head, tags) →
      validate_organization_id cfg.allowed tags head.metadata = .ok orgId →
      validate_file_requirements head (unquote_plus (rec.key.getD "")) = .ok fm →
      infra.dispatch (rec.bucket.getD "") (unquote_plus (rec.key.getD ""))
        orgId fm.file_size = .ok arn →
      infra.auditFail ctr = none → infra.auditFail (ctr + 1) = none →
      infra.auditFail (ctr + 2) = some msg → infra.auditFail (ctr + 3) = some msg2 →
      processRecord cfg infra ctr rec =
        ([uploadEvent (unquote_plus (rec.key.getD "")),
          validationOkEvent orgId (unquote_plus (rec.key.getD ""))], ctr + 4,
         .crashed)) ∧
    (∀ ctr rest evs ctr1,
      processRecord cfg infra ctr rec = (evs, ctr1, .crashed) →
      (runRecords cfg infra ctr (rec :: rest)).2.2 = none) ∧
    (∀ pre rest,
      (runRecords cfg infra (runRecords cfg infra 0 pre).2.1 (rec :: rest)).2.2 =
        none →
      (lambda_handler cfg infra (pre ++ rec :: rest)).2 = none) := by
  refine ⟨?_, ?_, ?_, ?_, ?_, ?_, ?_, ?_, ?_, ?_, ?_, ?_, ?_⟩
  · intro ctr msg head tags hf hc hc1
    unfold processRecord
    simp [hb, hk, hf, hc, hc1]
  · intro ctr msg head tags orgId fm hf ho hv h0 h1 h2
    unfold processRecord
    simp [hb, hk, hf, ho, hv, h0, h1, h2]
  · intro ctr msg head tags orgId fm arn hf ho hv hd h0 h1 h2 h3
    unfold processRecord
    simp [hb, hk, hf, ho, hv, hd, h0, h1, h2, h3]
  · intro ctr rest evs ctr1 r h
    exact runRecords_cons_done cfg infra ctr rec rest evs ctr1 r h
  · intro ctr msg head tags e hf ho h0 h1
    unfold processRecord
    simp [hb, hk, hf, ho, h0, h1]
  · intro ctr msg head tags orgId e hf ho hv h0 h1
    unfold processRecord
    simp [hb, hk, hf, ho, hv, h0, h1]
  · intro ctr msg msg2 hf hc
    unfold processRecord
    simp [hb, hk, hf, hc]
  · intro ctr msg msg2 head tags hf hc hc1
    unfold processRecord
    simp [hb, hk, hf, hc, hc1]
  · intro ctr msg msg2 head tags orgId fm hf ho hv h0 h1 h2
    unfold processRecord
    simp [hb, hk, hf, ho, hv, h0, h1, h2]
  · intro ctr msg msg2 head tags orgId fm hf ho hv hd h0 h1 h2
    unfold processRecord
    simp [hb, hk, hf, ho, hv, hd, h0, h1, h2]
  · intro ctr msg msg2 head tags orgId fm arn hf ho hv hd h0 h1 h2 h3
    unfold processRecord
    simp [hb, hk, hf, ho, hv, hd, h0, h1, h2, h3]
  · intro ctr rest evs ctr1 h
    exact runRecords_cons_crashed cfg infra ctr rec rest evs ctr1 h
  · intro pre rest h
    have h2 := runRecords_suffix_none cfg infra pre (rec :: rest) 0 h
    unfold lambda_handler
    rcases hq : runRecords cfg infra 0 (pre ++ rec :: rest) with ⟨evs, c, res⟩
    rw [hq] at h2
    dsimp only at h2 ⊢
    rw [h2]
    rfl

/-- Witness for the amended claim C4: a two-record batch whose second
record's validation-failure audit write fails; the crash at that later
batch position propagates and the handler returns no response. -/
theorem audit_failure_propagation_witness :
    (lambda_handler ⟨["acme"]⟩
        ⟨fun _ k => if k = "ok.zip"
            then .ok (⟨600, "", "", []⟩, [("organization-id", "acme")])
            else .ok (⟨600, "", "", []⟩, [("organization-id", "evil")]),
         fun _ _ _ _ => .ok "arn:w",
         fun n => if n = 4 then some "audit store down" else none⟩
        [⟨some "wb", some "ok.zip"⟩, ⟨some "wb", some "bad.zip"⟩]).2 = none := by
  have T := audit_failure_propagation ⟨["acme"]⟩
    ⟨fun _ k => if k = "ok.zip"
        then .ok (⟨600, "", "", []⟩, [("organization-id", "acme")])
        else .ok (⟨600, "", "", []⟩, [("organization-id", "evil")]),
     fun _ _ _ _ => .ok "arn:w",
     fun n => if n = 4 then some "audit store down" else none⟩
    ⟨some "wb", some "bad.zip"⟩ rfl rfl
  exact T.2.2.2.2.2.2.2.2.2.2.2.2 [⟨some "wb", some "ok.zip"⟩] []
    (T.2.2.2.2.2.2.2.2.2.2.2.1 _ [] _ _
      (T.2.2.2.2.1 _ "audit store down" ⟨600, "", "", []⟩
        [("organization-id", "evil")] (.unauthorizedOrganization "evil")
        rfl rfl rfl rfl))

/-- Claim C6: for every record whose metadata fetch succeeds and whose
audit writes all succeed, at least two audit events are recorded: the
first is the UPLOAD event (organization "PENDING") and the second is a
VALIDATION event — whether validation passes or fails, and whatever the
dispatch outcome is. -/
theorem upload_then_validation_events (cfg : Config) (infra : Infra) (ctr : Nat)
    (rec : S3Record) (head : HeadResponse) (tags : List (String × String))
    (hb : truthy rec.bucket = true) (hk : truthy rec.key = true)
    (hA : ∀ n, infra.auditFail n = none)
    (hf : infra.fetch (rec.bucket.getD "") (unquote_plus (rec.key.getD "")) =
      .ok (head, tags)) :
    (processRecord cfg infra ctr rec).1.head? =
      some (uploadEvent (unquote_plus (rec.key.getD ""))) ∧
    ((processRecord cfg infra ctr rec).1.get? 1).map AuditEvent.eventType =
      some "VALIDATION" ∧
    2 ≤ (processRecord cfg infra ctr rec).1.length := by
  unfold processRecord
  simp only [hb, hk, Bool.true_eq_false, or_self, if_false, hf, hA]
  repeat' split
  all_goals simp [uploadEvent, validationFailEvent, validationOkEvent]

/-- Witness for claim C6 at a concrete record that passes validation. -/
theorem upload_then_validation_events_witness :
    (processRecord ⟨["acme"]⟩
        ⟨fun _ _ => .ok (⟨500, "", "", []⟩, [("organization-id", "acme")]),
         fun _ _ _ _ => .ok "arn", fun _ => none⟩
        0 ⟨some "bkt", some "q.zip"⟩).1.head? = some (uploadEvent "q.zip") ∧
    ((processRecord ⟨["acme"]⟩
        ⟨fun _ _ => .ok (⟨500, "", "", []⟩, [("organization-id", "acme")]),
         fun _ _ _ _ => .ok "arn", fun _ => none⟩
        0 ⟨some "bkt", some "q.zip"⟩).1.get? 1).map AuditEvent.eventType =
      some "VALIDATION" ∧
    2 ≤ (processRecord ⟨["acme"]⟩
        ⟨fun _ _ => .ok (⟨500, "", "", []⟩, [("organization-id", "acme")]),
         fun _ _ _ _ => .ok "arn", fun _ => none⟩
        0 ⟨some "bkt", some "q.zip"⟩).1.length :=
  upload_then_validation_events ⟨["acme"]⟩
    ⟨fun _ _ => .ok (⟨500, "", "", []⟩, [("organization-id", "acme")]),
     fun _ _ _ _ => .ok "arn", fun _ => none⟩
    0 ⟨some "bkt", some "q.zip"⟩ ⟨500, "", "", []⟩ [("organization-id", "acme")]
    rfl rfl (fun _ => rfl) rfl

/-- Claim C10: for every record that fails validation inside
`validate_organization_id` — a missing organization id, or an id that is
present in the tags or metadata but not in the allow-list — the recorded
VALIDATION audit event has status FAILURE and organizationId "UNKNOWN",
and the record's outcome is VALIDATION_FAILED: the failure is never
attributed to the organization id that was supplied. -/
theorem validation_failure_unknown_org (cfg : Config) (infra : Infra) (ctr : Nat)
    (rec : S3Record) (head : HeadResponse) (tags : List (String × String))
    (e : VError)
    (hb : truthy rec.bucket = true) (hk : truthy rec.key = true)
    (hf : infra.fetch (rec.bucket.getD "") (unquote_plus (rec.key.getD "")) =
      .ok (head, tags))
    (horg : validate_organization_id cfg.allowed tags head.metadata = .error e)
    (h0 : infra.auditFail ctr = none) (h1 : infra.auditFail (ctr + 1) = none) :
    (processRecord cfg infra ctr rec).1 =
      [uploadEvent (unquote_plus (rec.key.getD "")),
       validationFailEvent "UNKNOWN" (unquote_plus (rec.key.getD ""))] ∧
    (processRecord cfg infra ctr rec).2.2 =
      .done (vfailResult (unquote_plus (rec.key.getD "")) e) := by
  unfold processRecord
  simp [hb, hk, hf, h0, horg, h1]

/-- Witness for claim C10: a record carrying the unauthorized
organization id "evil" in its tags is audited with organization
"UNKNOWN". -/
theorem validation_failure_unknown_org_witness :
    (processRecord ⟨["acme"]⟩
        ⟨fun _ _ => .ok (⟨500, "", "", []⟩, [("organization-id", "evil")]),
         fun _ _ _ _ => .ok "arn", fun _ => none⟩
        0 ⟨some "bkt", some "t.zip"⟩).1 =
      [uploadEvent "t.zip", validationFailEvent "UNKNOWN" "t.zip"] :=
  (validation_failure_unknown_org ⟨["acme"]⟩
      ⟨fun _ _ => .ok (⟨500, "", "", []⟩, [("organization-id", "evil")]),
       fun _ _ _ _ => .ok "arn", fun _ => none⟩
      0 ⟨some "bkt", some "t.zip"⟩ ⟨500, "", "", []⟩ [("organization-id", "evil")]
      (.unauthorizedOrganization "evil") rfl rfl rfl rfl rfl rfl).1

/-- Claim C9, counterexample: a processor run with all required inputs
present whose completion audit write fails ends in failure having
emitted PROCESSING_IN_PROGRESS and then PROCESSING_COMPLETE with status
FAILURE — no PROCESSING_ERROR event is emitted for a failed run. -/
theorem processor_failure_event_cex :
    process_data_package ⟨some "b", some "k.zip", some "acme", some "tbl", "500"⟩
      ⟨fun n => if n = 1 then some "write timeout" else none, true⟩ =
      ([⟨"acme", "PROCESSING_IN_PROGRESS", "k.zip", "SUCCESS"⟩,
        ⟨"acme", "PROCESSING_COMPLETE", "k.zip", "FAILURE"⟩], .exitFailure) ∧
    "PROCESSING_COMPLETE" ≠ "PROCESSING_ERROR" := by
  refine ⟨rfl, ?_⟩
  decide

/-- Claim C9, amended: with all required inputs present and the first
audit write succeeding, the processor first emits
PROCESSING_IN_PROGRESS; it then emits PROCESSING_COMPLETE with status
SUCCESS when the run succeeds, and PROCESSING_COMPLETE with status
FAILURE when the run fails (PROCESSING_ERROR is reserved for the
missing-inputs path). -/
theorem processor_event_sequence (env : ProcEnv) (infra : ProcInfra)
    (hp : procAllPresent env = true) (h0 : infra.auditFail 0 = none) :
    (infra.auditFail 1 = none →
      process_data_package env infra =
        ([⟨env.organizationId.getD "", "PROCESSING_IN_PROGRESS",
             env.s3Key.getD "", "SUCCESS"⟩,
          ⟨env.organizationId.getD "", "PROCESSING_COMPLETE",
             env.s3Key.getD "", "SUCCESS"⟩], .success)) ∧
    (∀ msg, infra.auditFail 1 = some msg → infra.auditFail 2 = none →
      process_data_package env infra =
        ([⟨env.organizationId.getD "", "PROCESSING_IN_PROGRESS",
             env.s3Key.getD "", "SUCCESS"⟩,
          ⟨env.organizationId.getD "", "PROCESSING_COMPLETE",
             env.s3Key.getD "", "FAILURE"⟩], .exitFailure)) := by
  constructor
  · intro h1
    unfold process_data_package
    simp [hp, h0, h1]
  · intro msg h1 h2
    unfold process_data_package
    simp [hp, h0, h1, h2]

/-- Witness for the amended claim C9 at a fully successful run. -/
theorem processor_event_sequence_witness :
    process_data_package ⟨some "bkt", some "d.zip", some "acme", some "tbl", "900"⟩
      ⟨fun _ => none, true⟩ =
      ([⟨"acme", "PROCESSING_IN_PROGRESS", "d.zip", "SUCCESS"⟩,
        ⟨"acme", "PROCESSING_COMPLETE", "d.zip", "SUCCESS"⟩], .success) :=
  (processor_event_sequence ⟨some "bkt", some "d.zip", some "acme", some "tbl", "900"⟩
      ⟨fun _ => none, true⟩ rfl rfl).1 rfl

end SecureDataOrchestration
